import Mathlib

/-!
Shallow embedding of the interview-copilot recording application
(`main.py` and `test.py`).  Pure fragments of the Python code are
translated into executable Lean definitions; the GUI handlers become
explicit state-passing functions, with the results of external calls
(audio capture, HTTP, speech recognition) supplied as parameters.
Rational numbers stand in for the floating-point audio samples, and
Option/Except model fallible operations.
-/

namespace InterviewSpec

/-! ### Configuration constants (main.py lines 17-20, test.py lines 17-19) -/

def SAMPLE_RATE : Nat := 44100

def AUDIO_FILE : String := "answer.wav"

def OLLAMA_URL : String := "http://localhost:11434/api/chat"

/-! ### Audio devices and `get_monitor_device` (main.py lines 89-95)

`sd.query_devices()` is modelled as a list of devices, each with a name
and a maximum number of input channels.  Python's `s.lower()` and
`"monitor" in s` are modelled character-wise. -/

structure Device where
  name : String
  max_input_channels : Nat

def dDefault : Device := { name := "", max_input_channels := 0 }

/-- `needle` matches at the head of `hay` (helper for substring search). -/
def leadMatch : List Char → List Char → Bool
  | [], _ => true
  | _ :: _, [] => false
  | a :: as, b :: bs => a == b && leadMatch as bs

/-- `needle` occurs somewhere inside `hay` (Python's `needle in hay`). -/
def containsSub (needle : List Char) : List Char → Bool
  | [] => needle.isEmpty
  | c :: cs => leadMatch needle (c :: cs) || containsSub needle cs

/-- Python's `str.lower()`. -/
def lowerStr (s : String) : String := ⟨s.data.map Char.toLower⟩

/-- Python's `"monitor" in device['name'].lower()`. -/
def strContains (hay needle : String) : Bool := containsSub needle.data hay.data

/-- The loop condition of `get_monitor_device`:
`"monitor" in device['name'].lower() and device['max_input_channels'] > 0`. -/
def isMonitorInput (d : Device) : Bool :=
  strContains (lowerStr d.name) "monitor" && decide (0 < d.max_input_channels)

/-- The enumeration loop of `get_monitor_device`: index of the first
device satisfying the condition. -/
def monitorSearch : List Device → Option Nat
  | [] => none
  | d :: ds => if isMonitorInput d then some 0 else (monitorSearch ds).map (· + 1)

/-- `get_monitor_device` (main.py lines 89-95); `none` models the raised
`Exception("No PulseAudio monitor device found. Install pavucontrol.")`. -/
def get_monitor_device (devices : List Device) : Option Nat :=
  monitorSearch devices


/-! ### Audio buffers and int16 normalization (main.py lines 127-138,
test.py lines 102-105)

Samples are rationals standing in for the float32 values.  `sd.rec` with
`channels=2` yields a two-dimensional (frames × 2) array, with
`channels=1` a (frames × 1) array; `Buffer.stereo` / `Buffer.mono`
model the two shapes. -/

inductive Buffer where
  | mono (samples : List ℚ)
  | stereo (samples : List (ℚ × ℚ))
deriving DecidableEq

/-- `np.mean(recording, axis=1)` for the stereo shape; identity on a
one-dimensional recording (main.py lines 128-129 convert only when
`len(shape) == 2`). -/
def toMono : Buffer → List ℚ
  | .mono xs => xs
  | .stereo ps => ps.map fun p => (p.1 + p.2) / 2

/-- The flat list of samples, frame by frame (how `np.max`, `/` and
`np.int16` act elementwise over the whole array). -/
def allSamples : Buffer → List ℚ
  | .mono xs => xs
  | .stereo ps => ps.foldr (fun p acc => p.1 :: p.2 :: acc) []

def numChannels : Buffer → Nat
  | .mono _ => 1
  | .stereo _ => 2

/-- `np.max(np.abs(arr))`: the peak absolute sample (0 on an empty
list; the recordings the handlers produce are never empty). -/
def peak : List ℚ → ℚ
  | [] => 0
  | x :: xs => max |x| (peak xs)

/-- The C cast behind `np.int16` on an in-range float: truncation
toward zero.  Every value the two programs cast is in
`[-32767, 32767]`, so no wrap-around is modelled. -/
def np_int16 (q : ℚ) : ℤ := if 0 ≤ q then ⌊q⌋ else ⌈q⌉

/-- Division instrumented for zero divisors: a zero divisor yields
`none` (the float division would produce NaN/Inf, i.e. no valid
sample). -/
def safeDiv (a b : ℚ) : Option ℚ := if b = 0 then none else some (a / b)

/-- Elementwise application of a fallible operation over an array. -/
def mapOpt {α β : Type} (f : α → Option β) : List α → Option (List β)
  | [] => some []
  | x :: xs =>
    match f x, mapOpt f xs with
    | some y, some ys => some (y :: ys)
    | _, _ => none

/-- The guarded normalization of main.py lines 131-136:
`if max_val > 0: np.int16(recording / max_val * 32767)
else: np.int16(recording)`. -/
def mainNormalize (xs : List ℚ) : Option (List ℤ) :=
  let max_val := peak xs
  if 0 < max_val then
    mapOpt (fun x => (safeDiv x max_val).map fun y => np_int16 (y * 32767)) xs
  else
    some (xs.map np_int16)

/-- The unguarded normalization of test.py lines 103-105:
`np.int16(recording / np.max(np.abs(recording)) * 32767)` with no check
on the divisor. -/
def testNormalize (xs : List ℚ) : Option (List ℤ) :=
  let max_val := peak xs
  mapOpt (fun x => (safeDiv x max_val).map fun y => np_int16 (y * 32767)) xs

/-! ### The wave file and the application state

`scipy.io.wavfile.write(AUDIO_FILE, SAMPLE_RATE, audio_int16)` writes a
PCM file whose channel count is the second array dimension and whose
sample width comes from the `int16` dtype.  The single file on disk is
modelled as an optional `WavFile`; `data = none` marks samples produced
by casting NaN floats (no valid data). -/

structure WavFile where
  path : String
  rate : Nat
  channels : Nat
  bits : Nat
  data : Option (List ℤ)
deriving DecidableEq

/-- The mutable state a handler can touch: the response label, the
three buttons' `disabled` flags, `self.recording`, `self.monitor_device`,
the wave file on disk and whether the capture stream is running. -/
structure AppState where
  label : String
  start_disabled : Bool
  stop_disabled : Bool
  gen_disabled : Bool
  recording : Option Buffer
  monitor_device : Option Nat
  disk : Option WavFile
  streamActive : Bool
deriving DecidableEq

/-- The state `build` leaves behind in main.py (lines 41-75). -/
def initState : AppState :=
  { label := "[b]Press Start to record Speaker Audio[/b]"
    start_disabled := false
    stop_disabled := true
    gen_disabled := true
    recording := none
    monitor_device := none
    disk := none
    streamActive := false }

/-- `sd.rec(frames, samplerate=SAMPLE_RATE, channels=2, dtype="float32")`:
a stereo buffer of `frames` frames whose eventual contents come from the
capture stream, modelled by `fill`. -/
def sd_rec (frames : Nat) (fill : Nat → ℚ × ℚ) : Buffer :=
  Buffer.stereo ((List.range frames).map fill)

/-- `sd.rec(frames, samplerate=SAMPLE_RATE, channels=1, dtype="float32")`. -/
def sd_rec_mono (frames : Nat) (fill : Nat → ℚ) : Buffer :=
  Buffer.mono ((List.range frames).map fill)

def monitorErrMsg : String :=
  "No PulseAudio monitor device found. Install pavucontrol."

/-- main.py's `start_recording` (lines 98-118).  `recFail = some e`
models `sd.rec` raising; the whole body sits in a `try` whose `except`
writes the error into the label and re-enables Start. -/
def main_start_recording (s : AppState) (devices : List Device)
    (recFail : Option String) (fill : Nat → ℚ × ℚ) : AppState :=
  let s1 := { s with
    label := "[b]🎙 Recording Speaker Audio...[/b]"
    start_disabled := true
    stop_disabled := false
    gen_disabled := true }
  match get_monitor_device devices with
  | none =>
    { s1 with
      label := "[b]❌ Error:[/b]\n" ++ monitorErrMsg
      start_disabled := false
      stop_disabled := true }
  | some i =>
    let s2 := { s1 with monitor_device := some i }
    match recFail with
    | some e =>
      { s2 with
        label := "[b]❌ Error:[/b]\n" ++ e
        start_disabled := false
        stop_disabled := true }
    | none =>
      { s2 with
        recording := some (sd_rec (60 * SAMPLE_RATE) fill)
        streamActive := true }

/-- test.py's `start_recording` (lines 86-97): no device lookup, one
channel, and no `try`/`except` — a raising `sd.rec` escapes the handler
(`Except.error`). -/
def test_start_recording (s : AppState) (recFail : Option String)
    (fill : Nat → ℚ) : Except String AppState :=
  let s1 := { s with
    label := "[b]🎙 Recording...[/b]"
    start_disabled := true
    stop_disabled := false
    gen_disabled := true }
  match recFail with
  | some e => .error e
  | none =>
    .ok { s1 with
      recording := some (sd_rec_mono (60 * SAMPLE_RATE) fill)
      streamActive := true }

/-- main.py's `stop_recording` (lines 121-143): stop the stream, return
early when nothing was recorded, otherwise average a stereo recording
to mono, normalize with the zero-peak guard, and overwrite the wave
file. -/
def main_stop_recording (s : AppState) : AppState :=
  match s.recording with
  | none => { s with streamActive := false }
  | some buf =>
    let recMono := toMono buf
    let audio_int16 := mainNormalize recMono
    { s with
      streamActive := false
      recording := some (Buffer.mono recMono)
      disk := some
        { path := AUDIO_FILE
          rate := SAMPLE_RATE
          channels := 1
          bits := 16
          data := audio_int16 }
      label := "[b]✅ Speaker Recording Saved[/b]\nClick Generate."
      stop_disabled := true
      gen_disabled := false
      start_disabled := false }

/-- test.py's `stop_recording` (lines 99-112): no `None` check — with
`self.recording` still `None`, the innermost `np.abs(self.recording)`
is evaluated first and raises the `TypeError` below — no zero-peak
guard, and no `try`/`except`. -/
def test_stop_recording (s : AppState) : Except String AppState :=
  match s.recording with
  | none =>
    .error "bad operand type for abs(): 'NoneType'"
  | some buf =>
    let audio_int16 := testNormalize (allSamples buf)
    .ok { s with
      streamActive := false
      disk := some
        { path := AUDIO_FILE
          rate := SAMPLE_RATE
          channels := numChannels buf
          bits := 16
          data := audio_int16 }
      label := "[b]✅ Recording saved.[/b]\nTap Generate."
      stop_disabled := true
      gen_disabled := false
      start_disabled := false }

/-! ### Speech recognition: `transcribe` (main.py lines 169-177,
test.py lines 139-147)

The cloud call `recognizer.recognize_google(audio)` has four relevant
outcomes: recognized text, `sr.UnknownValueError`, `sr.RequestError`,
or some other exception (e.g. the wave file is missing or corrupt),
which the method does not catch. -/

inductive RecogResult where
  | recognized (text : String)
  | unknownValue
  | requestError
  | otherError (e : String)
deriving DecidableEq

/-- main.py's `transcribe`: the two named exceptions become sentinel
strings, anything else propagates. -/
def main_transcribe : RecogResult → Except String String
  | .recognized t => .ok t
  | .unknownValue => .ok "Could not understand audio."
  | .requestError => .ok "Google API error."
  | .otherError e => .error e

/-- test.py's `transcribe`: same structure, different sentinel texts. -/
def test_transcribe : RecogResult → Except String String
  | .recognized t => .ok t
  | .unknownValue => .ok "❌ Could not understand the audio."
  | .requestError => .ok "⚠️ Google API error."
  | .otherError e => .error e

/-! ### The Ollama call: `call_llama` (main.py lines 180-199,
test.py lines 152-182) -/

inductive Json where
  | str (s : String)
  | num (n : Int)
  | bool (b : Bool)
  | arr (xs : List Json)
  | obj (fields : List (String × Json))

/-- Association lookup inside a JSON object. -/
def lookupField : List (String × Json) → String → Option Json
  | [], _ => none
  | (k', v) :: fs, k => if k' = k then some v else lookupField fs k

/-- Dictionary lookup `j[k]` on a JSON object. -/
def jGet : Json → String → Option Json
  | .obj fields, k => lookupField fields k
  | _, _ => none

/-- The top-level keys of a JSON object, in order. -/
def jKeys : Json → List String
  | .obj fields => fields.map Prod.fst
  | _ => []

/-- Python's `str(...)` as used by the f-string on the extracted
content (always a string in the API's responses). -/
def jShow : Json → String
  | .str s => s
  | _ => "<json>"

def mainSystemPrompt : String :=
  "You are an interview copilot. Give concise, point-wise answers in simple English."

def testSystemPrompt : String :=
  "You are helpfull assistant, You task is to generate response as per question,\n                    Generate reponse in proper structure like below:\n                    1. point1.....\n                    2. point2.....\n                    .\n                    .\n                    "

/-- The `payload` dict of main.py lines 181-195. -/
def main_payload (transcript : String) : Json :=
  .obj
    [("model", .str "phi3:mini"),
     ("messages", .arr
       [.obj [("role", .str "system"), ("content", .str mainSystemPrompt)],
        .obj [("role", .str "user"), ("content", .str transcript)]]),
     ("stream", .bool false),
     ("options", .obj [("num_predict", .num 150)])]

/-- The `payload` dict of test.py lines 155-177. -/
def test_payload (transcript : String) : Json :=
  .obj
    [("model", .str "phi3:mini"),
     ("messages", .arr
       [.obj [("role", .str "system"), ("content", .str testSystemPrompt)],
        .obj [("role", .str "user"), ("content", .str transcript)]]),
     ("stream", .bool false),
     ("options", .obj [("num_predict", .num 150)])]

/-- `requests.post(url, json=payload)` + `raise_for_status()` +
`response.json()`, supplied as an environment: `.error` covers
connection errors, non-2xx statuses and JSON decode failures. -/
def HttpEnv : Type := String → Json → Except String Json

/-- main.py's `call_llama` (lines 180-199): POST the payload to
`OLLAMA_URL` and return `response.json()["message"]["content"]`
(a missing key raises a `KeyError`, which propagates). -/
def call_llama (transcript : String) (http : HttpEnv) :
    Except String Json :=
  match http OLLAMA_URL (main_payload transcript) with
  | .error e => .error e
  | .ok resp =>
    match jGet resp "message" with
    | none => .error "KeyError: 'message'"
    | some msg =>
      match jGet msg "content" with
      | none => .error "KeyError: 'content'"
      | some c => .ok c

/-- test.py's `call_llama` (lines 152-182): identical apart from the
system prompt (the `url` local equals `OLLAMA_URL`). -/
def test_call_llama (transcript : String) (http : HttpEnv) :
    Except String Json :=
  match http OLLAMA_URL (test_payload transcript) with
  | .error e => .error e
  | .ok resp =>
    match jGet resp "message" with
    | none => .error "KeyError: 'message'"
    | some msg =>
      match jGet msg "content" with
      | none => .error "KeyError: 'content'"
      | some c => .ok c

/-! ### The background pipeline: `ai_pipeline` (main.py lines 151-166,
test.py lines 120-136) -/

/-- main.py's `ai_pipeline`: transcribe, feed the transcript to the
model, display both; any exception is rendered in the label; the
`finally` block re-enables the Generate button on every path. -/
def main_ai_pipeline (recog : RecogResult) (http : HttpEnv)
    (s : AppState) : AppState :=
  match main_transcribe recog with
  | .error e =>
    { s with label := "[b]❌ Error[/b]\n" ++ e, gen_disabled := false }
  | .ok transcript =>
    match call_llama transcript http with
    | .error e =>
      { s with label := "[b]❌ Error[/b]\n" ++ e, gen_disabled := false }
    | .ok content =>
      { s with
        label := "[b]🎤 Interviewer Said:[/b]\n" ++ transcript ++
          "\n\n[b]🤖 Suggested Answer:[/b]\n" ++ jShow content
        gen_disabled := false }

/-- test.py's `ai_pipeline`: same shape, different labels. -/
def test_ai_pipeline (recog : RecogResult) (http : HttpEnv)
    (s : AppState) : AppState :=
  match test_transcribe recog with
  | .error e =>
    { s with label := "[b]❌ Error[/b]\n" ++ e, gen_disabled := false }
  | .ok transcript =>
    match test_call_llama transcript http with
    | .error e =>
      { s with label := "[b]❌ Error[/b]\n" ++ e, gen_disabled := false }
    | .ok content =>
      { s with
        label := "[b] Interviewer Say:[/b]\n" ++ transcript ++
          "\n\n[b]🤖 Generated Answer:[/b]\n" ++ jShow content
        gen_disabled := false }

/-! ### Supporting lemmas -/

lemma monitorSearch_none_iff (devices : List Device) :
    monitorSearch devices = none ↔ ∀ d ∈ devices, isMonitorInput d = false := by
  induction devices with
  | nil => simp [monitorSearch]
  | cons d ds ih =>
    cases hd : isMonitorInput d with
    | true => simp [monitorSearch, hd]
    | false =>
      rw [monitorSearch, hd]
      simp only [Bool.false_eq_true, if_false, Option.map_eq_none', ih,
        List.mem_cons]
      constructor
      · intro h x hx
        rcases hx with rfl | hx
        · exact hd
        · exact h x hx
      · intro h x hx
        exact h x (Or.inr hx)

lemma monitorSearch_some (devices : List Device) (i : Nat)
    (h : monitorSearch devices = some i) :
    i < devices.length ∧ isMonitorInput (devices.getD i dDefault) = true ∧
      ∀ j, j < i → isMonitorInput (devices.getD j dDefault) = false := by
  induction devices generalizing i with
  | nil => simp [monitorSearch] at h
  | cons d ds ih =>
    cases hd : isMonitorInput d with
    | true =>
      rw [monitorSearch, hd] at h
      simp only [if_true, Option.some.injEq] at h
      subst h
      refine ⟨by simp, by simpa using hd, ?_⟩
      intro j hj
      omega
    | false =>
      rw [monitorSearch, hd] at h
      simp only [Bool.false_eq_true, if_false, Option.map_eq_some'] at h
      obtain ⟨k, hk, rfl⟩ := h
      obtain ⟨hlen, hget, hmin⟩ := ih k hk
      refine ⟨by simpa using hlen, by simpa using hget, ?_⟩
      intro j hj
      cases j with
      | zero => simpa using hd
      | succ j =>
        have hjk : j < k := by omega
        simpa using hmin j hjk

lemma peak_nonneg (xs : List ℚ) : 0 ≤ peak xs := by
  induction xs with
  | nil => simp [peak]
  | cons x xs ih => exact le_max_of_le_right ih

lemma abs_le_peak {x : ℚ} {xs : List ℚ} (h : x ∈ xs) : |x| ≤ peak xs := by
  induction xs with
  | nil => simp at h
  | cons y ys ih =>
    rcases List.mem_cons.mp h with rfl | h
    · exact le_max_left _ _
    · exact le_trans (ih h) (le_max_right _ _)

lemma eq_zero_of_peak_eq_zero {xs : List ℚ} (h : peak xs = 0) {x : ℚ}
    (hx : x ∈ xs) : x = 0 := by
  have := abs_le_peak hx
  rw [h] at this
  exact abs_nonpos_iff.mp this

lemma mapOpt_safeDiv {b : ℚ} (hb : b ≠ 0) (g : ℚ → ℤ) (xs : List ℚ) :
    mapOpt (fun x => (safeDiv x b).map fun y => g y) xs =
      some (xs.map fun x => g (x / b)) := by
  induction xs with
  | nil => simp [mapOpt]
  | cons x xs ih =>
    rw [mapOpt, ih]
    simp [safeDiv, hb]

lemma mapOpt_safeDiv_zero {xs : List ℚ} (hne : xs ≠ []) (g : ℚ → ℤ) :
    mapOpt (fun x => (safeDiv x 0).map fun y => g y) xs = none := by
  cases xs with
  | nil => exact absurd rfl hne
  | cons x xs => simp [mapOpt, safeDiv]

lemma np_int16_zero : np_int16 0 = 0 := by simp [np_int16]

lemma np_int16_bound {q : ℚ} (h : |q| ≤ 32767) :
    -32767 ≤ np_int16 q ∧ np_int16 q ≤ 32767 := by
  obtain ⟨hlo, hhi⟩ := abs_le.mp h
  unfold np_int16
  by_cases h0 : 0 ≤ q
  · rw [if_pos h0]
    constructor
    · have : (0 : ℤ) ≤ ⌊q⌋ := Int.floor_nonneg.mpr h0
      omega
    · have : ⌊q⌋ ≤ ⌊(32767 : ℚ)⌋ := Int.floor_le_floor hhi
      simpa using this
  · rw [if_neg h0]
    push_neg at h0
    constructor
    · have : ⌈(-32767 : ℚ)⌉ ≤ ⌈q⌉ := Int.ceil_le_ceil hlo
      simpa using this
    · have : ⌈q⌉ ≤ ⌈(0 : ℚ)⌉ := Int.ceil_le_ceil h0.le
      simp at this
      omega

lemma div_mul_abs_le {m x : ℚ} (hm : 0 < m) (hx : |x| ≤ m) :
    |x / m * 32767| ≤ 32767 := by
  have h1 : |x / m| ≤ 1 := by
    rw [abs_div, abs_of_pos hm]
    exact (div_le_one hm).mpr hx
  calc |x / m * 32767| = |x / m| * 32767 := by
        rw [abs_mul]
        norm_num
    _ ≤ 1 * 32767 := by
        apply mul_le_mul_of_nonneg_right h1
        norm_num
    _ = 32767 := by norm_num

/-- main.py's normalization never fails (the guard prevents the
division by zero) and always lands in the signed-16-bit range. -/
lemma mainNormalize_total (xs : List ℚ) :
    ∃ ys, mainNormalize xs = some ys ∧
      ∀ z ∈ ys, -32767 ≤ z ∧ z ≤ 32767 := by
  unfold mainNormalize
  by_cases hm : 0 < peak xs
  · rw [if_pos hm]
    refine ⟨_, mapOpt_safeDiv (ne_of_gt hm) _ xs, ?_⟩
    intro z hz
    obtain ⟨x, hx, rfl⟩ := List.mem_map.mp hz
    exact np_int16_bound (div_mul_abs_le hm (abs_le_peak hx))
  · rw [if_neg hm]
    refine ⟨_, rfl, ?_⟩
    intro z hz
    obtain ⟨x, hx, rfl⟩ := List.mem_map.mp hz
    have hzero : peak xs = 0 :=
      le_antisymm (not_lt.mp hm) (peak_nonneg xs)
    rw [eq_zero_of_peak_eq_zero hzero hx, np_int16_zero]
    omega

/-- test.py's unguarded normalization divides by zero on any nonempty
all-zero recording. -/
lemma testNormalize_zero_peak {xs : List ℚ} (hne : xs ≠ [])
    (h : peak xs = 0) : testNormalize xs = none := by
  unfold testNormalize
  rw [h]
  exact mapOpt_safeDiv_zero hne _

/-- Whenever test.py's unguarded normalization does produce samples,
they lie in the signed-16-bit range. -/
lemma testNormalize_bounded {xs : List ℚ} {ys : List ℤ}
    (h : testNormalize xs = some ys) :
    ∀ z ∈ ys, -32767 ≤ z ∧ z ≤ 32767 := by
  by_cases hm : 0 < peak xs
  · simp only [testNormalize] at h
    rw [mapOpt_safeDiv (ne_of_gt hm)] at h
    cases h
    intro z hz
    obtain ⟨x, hx, rfl⟩ := List.mem_map.mp hz
    exact np_int16_bound (div_mul_abs_le hm (abs_le_peak hx))
  · have hzero : peak xs = 0 := le_antisymm (not_lt.mp hm) (peak_nonneg xs)
    cases xs with
    | nil =>
      simp only [testNormalize, mapOpt] at h
      cases h
      intro z hz
      simp at hz
    | cons x xs =>
      rw [testNormalize_zero_peak (by simp) hzero] at h
      simp at h

/-! ### Concrete data used by the witnesses -/

/-- A device list with one microphone and two PulseAudio monitors. -/
def devs2 : List Device :=
  [{ name := "HDA Intel PCH: ALC287 Analog", max_input_channels := 2 },
   { name := "Monitor of Built-in Audio", max_input_channels := 2 },
   { name := "Monitor of HDMI Audio", max_input_channels := 2 }]

/-- A response as the Ollama chat endpoint shapes it. -/
def mkResp (a : String) : Json :=
  .obj [("message", .obj [("content", .str a)])]

/-! ### The claims -/

/-- C2: `get_monitor_device` returns the index of the first input
device (positive `max_input_channels`) whose lower-cased name contains
"monitor", and raises (returns `none`) exactly when no such device is
in the list. -/
theorem C2_get_monitor_device_first_match (devices : List Device) :
    (get_monitor_device devices = none ↔
      ∀ d ∈ devices, isMonitorInput d = false) ∧
    (∀ i, get_monitor_device devices = some i →
      i < devices.length ∧
      isMonitorInput (devices.getD i dDefault) = true ∧
      ∀ j, j < i → isMonitorInput (devices.getD j dDefault) = false) :=
  ⟨monitorSearch_none_iff devices, fun i h => monitorSearch_some devices i h⟩

/-- Witness for C2 on a concrete device list: index 1 is returned, it
is a monitor input, and the device before it is not. -/
theorem C2_witness :
    1 < devs2.length ∧
    isMonitorInput (devs2.getD 1 dDefault) = true ∧
    ∀ j, j < 1 → isMonitorInput (devs2.getD j dDefault) = false :=
  (C2_get_monitor_device_first_match devs2).2 1 (by decide)

/-- C4: `transcribe` returns the recognized text, or one fixed
sentinel string for `UnknownValueError` and another for
`RequestError`; neither of those two exceptions ever escapes (in the
model: the two cases are total, producing `.ok`), in both files. -/
theorem C4_transcribe_sentinels :
    (∀ t, main_transcribe (.recognized t) = .ok t) ∧
    main_transcribe .unknownValue = .ok "Could not understand audio." ∧
    main_transcribe .requestError = .ok "Google API error." ∧
    "Could not understand audio." ≠ "Google API error." ∧
    (∀ t, test_transcribe (.recognized t) = .ok t) ∧
    test_transcribe .unknownValue = .ok "❌ Could not understand the audio." ∧
    test_transcribe .requestError = .ok "⚠️ Google API error." ∧
    "❌ Could not understand the audio." ≠ "⚠️ Google API error." :=
  ⟨fun _ => rfl, rfl, rfl, by decide, fun _ => rfl, rfl, rfl, by decide⟩

/-- C8: in main.py, `stop_recording` with no recording buffer only
stops the stream: label, buttons, recording and disk all stay exactly
as they were, and no wave file is written. -/
theorem C8_stop_recording_early_return (s : AppState)
    (h : s.recording = none) :
    main_stop_recording s = { s with streamActive := false } := by
  unfold main_stop_recording
  rw [h]

/-- Witness for C8: the freshly built state has no recording, and
stopping leaves everything but the stream flag unchanged. -/
theorem C8_witness :
    main_stop_recording initState = { initState with streamActive := false } :=
  C8_stop_recording_early_return initState rfl

/-- C10: both pipelines re-enable the Generate button on every path —
success, transcription failure, HTTP failure, malformed response —
because the assignment sits in a `finally` block. -/
theorem C10_gen_button_reenabled (recog : RecogResult) (http : HttpEnv)
    (s : AppState) :
    (main_ai_pipeline recog http s).gen_disabled = false ∧
    (test_ai_pipeline recog http s).gen_disabled = false := by
  constructor
  · simp only [main_ai_pipeline]
    split
    · rfl
    · split <;> rfl
  · simp only [test_ai_pipeline]
    split
    · rfl
    · split <;> rfl

/-- C1 counterexample: the claim covers the `stop_recording` of both
files, but test.py (lines 103-105) has no zero-peak guard: on the
all-zero one-sample buffer the peak is 0, yet the conversion still
divides by it (`none`), instead of the division-free int16 conversion
the claim describes (which would yield `[0]`). -/
theorem C1_counterexample :
    peak [(0 : ℚ)] = 0 ∧
    testNormalize [(0 : ℚ)] = none ∧
    [(0 : ℚ)].map np_int16 = [(0 : ℤ)] := by
  refine ⟨by simp [peak], ?_, by simp [np_int16]⟩
  exact testNormalize_zero_peak (by simp) (by simp [peak])

/-- C1 amended: in main.py's `stop_recording` the division is guarded —
a zero-peak buffer is converted to int16 without any division, and no
division by zero occurs for any recorded buffer; in test.py's
`stop_recording` the division is unguarded, so a zero-peak (nonempty)
buffer is divided by zero. -/
theorem C1_zero_peak_guard (xs : List ℚ) (hne : xs ≠ [])
    (h : peak xs = 0) :
    mainNormalize xs = some (xs.map np_int16) ∧
    (∀ zs : List ℚ, (mainNormalize zs).isSome = true) ∧
    testNormalize xs = none := by
  refine ⟨?_, ?_, testNormalize_zero_peak hne h⟩
  · simp [mainNormalize, h]
  · intro zs
    obtain ⟨ys, hys, -⟩ := mainNormalize_total zs
    simp [hys]

/-- Witness for C1 at the concrete two-sample silent buffer. -/
theorem C1_witness :
    mainNormalize [(0 : ℚ), 0] = some ([(0 : ℚ), 0].map np_int16) ∧
    (∀ zs : List ℚ, (mainNormalize zs).isSome = true) ∧
    testNormalize [(0 : ℚ), 0] = none :=
  C1_zero_peak_guard [(0 : ℚ), 0] (by simp) (by simp [peak])

/-- C3 counterexample: test.py's `start_recording` (lines 86-97) has no
`try`/`except`, so an exception raised by `sd.rec` (e.g. a PortAudio
failure) escapes the handler uncaught instead of being rendered in the
UI label. -/
theorem C3_counterexample :
    test_start_recording initState
        (some "PortAudioError: Error querying device -9996") (fun _ => 0) =
      .error "PortAudioError: Error querying device -9996" := rfl

/-- C3 amended: in main.py, `start_recording` and `ai_pipeline` catch
every exception at top level — every run ends with the handler's
success outcome or with the error rendered in the label, and each
failure kind (device-not-found, audio-capture failure, an exception
propagating out of `transcribe`, HTTP/API errors) is rendered as
`str(e)`; but test.py's `start_recording` and `stop_recording` have no
top-level handler, so exceptions raised there (audio-capture failures;
the `np.abs(None)` TypeError when no recording exists) escape
uncaught. -/
theorem C3_handler_exception_coverage (s : AppState)
    (devicesF devices : List Device) (i : Nat)
    (fill : Nat → ℚ × ℚ) (fill1 : Nat → ℚ) (recog : RecogResult)
    (t : String) (http : HttpEnv) (e eDev eRec eSr : String)
    (hdevF : get_monitor_device devicesF = none)
    (hdev : get_monitor_device devices = some i)
    (ht : main_transcribe recog = .ok t)
    (hhttp : http OLLAMA_URL (main_payload t) = .error e)
    (hrec : s.recording = none) :
    (∀ (ds : List Device) (rf : Option String) (f : Nat → ℚ × ℚ),
      (main_start_recording s ds rf f).label =
          "[b]🎙 Recording Speaker Audio...[/b]" ∨
      ∃ err, (main_start_recording s ds rf f).label =
          "[b]❌ Error:[/b]\n" ++ err) ∧
    (∀ (rg : RecogResult) (hp : HttpEnv),
      (∃ t' c, main_ai_pipeline rg hp s =
        { s with
          label := "[b]🎤 Interviewer Said:[/b]\n" ++ t' ++
            "\n\n[b]🤖 Suggested Answer:[/b]\n" ++ jShow c
          gen_disabled := false }) ∨
      ∃ err, (main_ai_pipeline rg hp s).label =
          "[b]❌ Error[/b]\n" ++ err) ∧
    (main_start_recording s devicesF none fill).label =
      "[b]❌ Error:[/b]\n" ++ monitorErrMsg ∧
    (main_start_recording s devices (some eDev) fill).label =
      "[b]❌ Error:[/b]\n" ++ eDev ∧
    (main_ai_pipeline (.otherError eSr) http s).label =
      "[b]❌ Error[/b]\n" ++ eSr ∧
    (main_ai_pipeline recog http s).label = "[b]❌ Error[/b]\n" ++ e ∧
    test_start_recording s (some eRec) fill1 = .error eRec ∧
    test_stop_recording s =
      .error "bad operand type for abs(): 'NoneType'" := by
  refine ⟨?_, ?_, ?_, ?_, rfl, ?_, rfl, ?_⟩
  · intro ds rf f
    cases hd : get_monitor_device ds with
    | none =>
      right
      exact ⟨monitorErrMsg, by simp only [main_start_recording, hd]⟩
    | some j =>
      cases rf with
      | some eF =>
        right
        exact ⟨eF, by simp only [main_start_recording, hd]⟩
      | none =>
        left
        simp only [main_start_recording, hd]
  · intro rg hp
    simp only [main_ai_pipeline]
    split
    · exact Or.inr ⟨_, rfl⟩
    · split
      · exact Or.inr ⟨_, rfl⟩
      · exact Or.inl ⟨_, _, rfl⟩
  · simp only [main_start_recording, hdevF]
  · simp only [main_start_recording, hdev]
  · simp only [main_ai_pipeline, ht, call_llama, hhttp]
  · simp only [test_stop_recording, hrec]

/-- Witness for C3's amended statement at concrete inputs: concrete
device lists, a capture failure, a propagating transcription error, a
connection failure, and the None recording. -/
theorem C3_witness :
    (∀ (ds : List Device) (rf : Option String) (f : Nat → ℚ × ℚ),
      (main_start_recording initState ds rf f).label =
          "[b]🎙 Recording Speaker Audio...[/b]" ∨
      ∃ err, (main_start_recording initState ds rf f).label =
          "[b]❌ Error:[/b]\n" ++ err) ∧
    (∀ (rg : RecogResult) (hp : HttpEnv),
      (∃ t' c, main_ai_pipeline rg hp initState =
        { initState with
          label := "[b]🎤 Interviewer Said:[/b]\n" ++ t' ++
            "\n\n[b]🤖 Suggested Answer:[/b]\n" ++ jShow c
          gen_disabled := false }) ∨
      ∃ err, (main_ai_pipeline rg hp initState).label =
          "[b]❌ Error[/b]\n" ++ err) ∧
    (main_start_recording initState [] none (fun _ => (0, 0))).label =
      "[b]❌ Error:[/b]\n" ++ monitorErrMsg ∧
    (main_start_recording initState devs2 (some "PortAudioError: device busy")
        (fun _ => (0, 0))).label =
      "[b]❌ Error:[/b]\n" ++ "PortAudioError: device busy" ∧
    (main_ai_pipeline (.otherError "Audio file could not be read")
        (fun _ _ => .error "Connection refused") initState).label =
      "[b]❌ Error[/b]\n" ++ "Audio file could not be read" ∧
    (main_ai_pipeline (.recognized "Tell me about yourself")
        (fun _ _ => .error "Connection refused") initState).label =
      "[b]❌ Error[/b]\n" ++ "Connection refused" ∧
    test_start_recording initState (some "PortAudioError") (fun _ => 0) =
      .error "PortAudioError" ∧
    test_stop_recording initState =
      .error "bad operand type for abs(): 'NoneType'" :=
  C3_handler_exception_coverage initState [] devs2 1 (fun _ => (0, 0))
    (fun _ => 0) (.recognized "Tell me about yourself")
    "Tell me about yourself" (fun _ _ => .error "Connection refused")
    "Connection refused" "PortAudioError: device busy" "PortAudioError"
    "Audio file could not be read" rfl (by decide) rfl rfl rfl

/-- C5: the wave file written by `stop_recording` is always one
channel, 16 bits per sample, at 44100 Hz, and overwritten at the one
fixed path `answer.wav` — in main.py for any recording, with a stereo
recording first averaged across channels before the int16 conversion;
in test.py for the one-dimensional recording its
`sd.rec(channels=1)` produces.  Written samples fit the signed-16-bit
range. -/
theorem C5_wavfile_mono_16bit_44100 (s s2 : AppState) (buf : Buffer)
    (xs : List ℚ) (h : s.recording = some buf)
    (h2 : s2.recording = some (Buffer.mono xs)) :
    (∃ w : WavFile, (main_stop_recording s).disk = some w ∧
      w.path = AUDIO_FILE ∧ AUDIO_FILE = "answer.wav" ∧
      w.rate = 44100 ∧ w.channels = 1 ∧ w.bits = 16 ∧
      w.data = mainNormalize (toMono buf) ∧
      (∃ ys, w.data = some ys ∧ ∀ z ∈ ys, -32767 ≤ z ∧ z ≤ 32767) ∧
      ∀ ps, buf = Buffer.stereo ps →
        toMono buf = ps.map fun p => (p.1 + p.2) / 2) ∧
    (∃ s' w, test_stop_recording s2 = .ok s' ∧ s'.disk = some w ∧
      w.path = AUDIO_FILE ∧ w.rate = 44100 ∧ w.channels = 1 ∧
      w.bits = 16 ∧ w.data = testNormalize xs ∧
      ∀ ys, w.data = some ys → ∀ z ∈ ys, -32767 ≤ z ∧ z ≤ 32767) := by
  constructor
  · unfold main_stop_recording
    rw [h]
    refine ⟨_, rfl, rfl, rfl, rfl, rfl, rfl, rfl, ?_, ?_⟩
    · exact mainNormalize_total (toMono buf)
    · intro ps hp
      rw [hp]
      rfl
  · unfold test_stop_recording
    rw [h2]
    refine ⟨_, _, rfl, rfl, rfl, rfl, rfl, rfl, rfl, ?_⟩
    intro ys hys z hz
    exact testNormalize_bounded hys z hz

/-- Witness for C5 at concrete states holding a stereo recording
(main.py) and a mono recording (test.py). -/
theorem C5_witness :
    (∃ w : WavFile,
      (main_stop_recording
        { initState with recording := some (Buffer.stereo [((0 : ℚ), 0)]) }).disk =
        some w ∧
      w.path = AUDIO_FILE ∧ AUDIO_FILE = "answer.wav" ∧
      w.rate = 44100 ∧ w.channels = 1 ∧ w.bits = 16 ∧
      w.data = mainNormalize (toMono (Buffer.stereo [((0 : ℚ), 0)])) ∧
      (∃ ys, w.data = some ys ∧ ∀ z ∈ ys, -32767 ≤ z ∧ z ≤ 32767) ∧
      ∀ ps, Buffer.stereo [((0 : ℚ), 0)] = Buffer.stereo ps →
        toMono (Buffer.stereo [((0 : ℚ), 0)]) =
          ps.map fun p => (p.1 + p.2) / 2) ∧
    (∃ s' w, test_stop_recording
        { initState with recording := some (Buffer.mono [(0 : ℚ)]) } =
        .ok s' ∧ s'.disk = some w ∧
      w.path = AUDIO_FILE ∧ w.rate = 44100 ∧ w.channels = 1 ∧
      w.bits = 16 ∧ w.data = testNormalize [(0 : ℚ)] ∧
      ∀ ys, w.data = some ys → ∀ z ∈ ys, -32767 ≤ z ∧ z ≤ 32767) :=
  C5_wavfile_mono_16bit_44100
    { initState with recording := some (Buffer.stereo [((0 : ℚ), 0)]) }
    { initState with recording := some (Buffer.mono [(0 : ℚ)]) }
    (Buffer.stereo [((0 : ℚ), 0)]) [(0 : ℚ)] rfl rfl

/-- C6: `start_recording` asks `sd.rec` for `int(60 * SAMPLE_RATE)`
frames — exactly 2,646,000 frames per channel — in every session in
which recording starts (stereo in main.py, mono in test.py). -/
theorem C6_buffer_is_60s_at_44100 (s : AppState) (devices : List Device)
    (fill : Nat → ℚ × ℚ) (fill1 : Nat → ℚ) (i : Nat)
    (hdev : get_monitor_device devices = some i) :
    (∃ ps, (main_start_recording s devices none fill).recording =
        some (Buffer.stereo ps) ∧ ps.length = 2646000) ∧
    (∃ s' qs, test_start_recording s none fill1 = .ok s' ∧
        s'.recording = some (Buffer.mono qs) ∧ qs.length = 2646000) ∧
    60 * SAMPLE_RATE = 2646000 := by
  refine ⟨?_, ?_, by decide⟩
  · simp only [main_start_recording, hdev]
    exact ⟨_, rfl, by simp [sd_rec, SAMPLE_RATE]⟩
  · exact ⟨_, _, rfl, rfl, by simp [sd_rec_mono, SAMPLE_RATE]⟩

/-- Witness for C6 with the concrete device list `devs2`. -/
theorem C6_witness :
    (∃ ps, (main_start_recording initState devs2 none
        (fun _ => (0, 0))).recording =
        some (Buffer.stereo ps) ∧ ps.length = 2646000) ∧
    (∃ s' qs, test_start_recording initState none (fun _ => 0) = .ok s' ∧
        s'.recording = some (Buffer.mono qs) ∧ qs.length = 2646000) ∧
    60 * SAMPLE_RATE = 2646000 :=
  C6_buffer_is_60s_at_44100 initState devs2 (fun _ => (0, 0)) (fun _ => 0)
    1 (by decide)

/-- C7 counterexample: the claim's "exactly" omits a field — the JSON
body also carries `"stream": false`, so its top-level keys are not
just the model name, messages and the generation cap. -/
theorem C7_counterexample :
    jKeys (main_payload "hello") = ["model", "messages", "stream", "options"] ∧
    jKeys (main_payload "hello") ≠ ["model", "messages", "options"] ∧
    jGet (main_payload "hello") "stream" = some (Json.bool false) :=
  ⟨rfl, by decide, rfl⟩

/-- C7 amended: in both files the body consists of exactly the model
name, the two-element system/user message list (user content = the
transcript), a `stream = false` flag, and an options object carrying
the generation-length cap `num_predict = 150`; and in both files the
returned value is the response JSON at `["message"]["content"]`. -/
theorem C7_payload_and_extraction (transcript : String)
    (http http2 : HttpEnv) (resp c resp2 c2 : Json)
    (hresp : http OLLAMA_URL (main_payload transcript) = .ok resp)
    (hmsg : jGet resp "message" = some (Json.obj [("content", c)]))
    (hresp2 : http2 OLLAMA_URL (test_payload transcript) = .ok resp2)
    (hmsg2 : jGet resp2 "message" = some (Json.obj [("content", c2)])) :
    jKeys (main_payload transcript) =
      ["model", "messages", "stream", "options"] ∧
    jGet (main_payload transcript) "model" = some (.str "phi3:mini") ∧
    jGet (main_payload transcript) "messages" = some (.arr
      [.obj [("role", .str "system"), ("content", .str mainSystemPrompt)],
       .obj [("role", .str "user"), ("content", .str transcript)]]) ∧
    jGet (main_payload transcript) "stream" = some (.bool false) ∧
    jGet (main_payload transcript) "options" =
      some (.obj [("num_predict", .num 150)]) ∧
    call_llama transcript http = .ok c ∧
    jKeys (test_payload transcript) =
      ["model", "messages", "stream", "options"] ∧
    jGet (test_payload transcript) "model" = some (.str "phi3:mini") ∧
    jGet (test_payload transcript) "messages" = some (.arr
      [.obj [("role", .str "system"), ("content", .str testSystemPrompt)],
       .obj [("role", .str "user"), ("content", .str transcript)]]) ∧
    jGet (test_payload transcript) "stream" = some (.bool false) ∧
    jGet (test_payload transcript) "options" =
      some (.obj [("num_predict", .num 150)]) ∧
    test_call_llama transcript http2 = .ok c2 := by
  refine ⟨rfl, rfl, rfl, rfl, rfl, ?_, rfl, rfl, rfl, rfl, rfl, ?_⟩
  · simp only [call_llama, hresp, hmsg]
    rfl
  · simp only [test_call_llama, hresp2, hmsg2]
    rfl

/-- Witness for C7's amended statement at a concrete transcript and
well-formed HTTP responses for both files. -/
theorem C7_witness :
    jKeys (main_payload "hello") =
      ["model", "messages", "stream", "options"] ∧
    jGet (main_payload "hello") "model" = some (.str "phi3:mini") ∧
    jGet (main_payload "hello") "messages" = some (.arr
      [.obj [("role", .str "system"), ("content", .str mainSystemPrompt)],
       .obj [("role", .str "user"), ("content", .str "hello")]]) ∧
    jGet (main_payload "hello") "stream" = some (.bool false) ∧
    jGet (main_payload "hello") "options" =
      some (.obj [("num_predict", .num 150)]) ∧
    call_llama "hello" (fun _ _ => .ok (mkResp "Hi")) = .ok (.str "Hi") ∧
    jKeys (test_payload "hello") =
      ["model", "messages", "stream", "options"] ∧
    jGet (test_payload "hello") "model" = some (.str "phi3:mini") ∧
    jGet (test_payload "hello") "messages" = some (.arr
      [.obj [("role", .str "system"), ("content", .str testSystemPrompt)],
       .obj [("role", .str "user"), ("content", .str "hello")]]) ∧
    jGet (test_payload "hello") "stream" = some (.bool false) ∧
    jGet (test_payload "hello") "options" =
      some (.obj [("num_predict", .num 150)]) ∧
    test_call_llama "hello" (fun _ _ => .ok (mkResp "Hi")) =
      .ok (.str "Hi") :=
  C7_payload_and_extraction "hello" (fun _ _ => .ok (mkResp "Hi"))
    (fun _ _ => .ok (mkResp "Hi")) (mkResp "Hi") (.str "Hi")
    (mkResp "Hi") (.str "Hi") rfl rfl rfl rfl

/-- C9: in both files `ai_pipeline` forwards whatever `transcribe`
returned — including a sentinel error string — as the user-message
content of the LLM request, and on success displays both the
transcript and the answer instead of aborting. -/
theorem C9_transcript_forwarded_unconditionally (s s2 : AppState)
    (recog recog2 : RecogResult) (t t2 ans ans2 : String)
    (http http2 : HttpEnv)
    (ht : main_transcribe recog = .ok t)
    (hhttp : http OLLAMA_URL (main_payload t) = .ok (mkResp ans))
    (ht2 : test_transcribe recog2 = .ok t2)
    (hhttp2 : http2 OLLAMA_URL (test_payload t2) = .ok (mkResp ans2)) :
    jGet (main_payload t) "messages" = some (.arr
      [.obj [("role", .str "system"), ("content", .str mainSystemPrompt)],
       .obj [("role", .str "user"), ("content", .str t)]]) ∧
    main_ai_pipeline recog http s =
      { s with
        label := "[b]🎤 Interviewer Said:[/b]\n" ++ t ++
          "\n\n[b]🤖 Suggested Answer:[/b]\n" ++ ans
        gen_disabled := false } ∧
    jGet (test_payload t2) "messages" = some (.arr
      [.obj [("role", .str "system"), ("content", .str testSystemPrompt)],
       .obj [("role", .str "user"), ("content", .str t2)]]) ∧
    test_ai_pipeline recog2 http2 s2 =
      { s2 with
        label := "[b] Interviewer Say:[/b]\n" ++ t2 ++
          "\n\n[b]🤖 Generated Answer:[/b]\n" ++ ans2
        gen_disabled := false } := by
  refine ⟨rfl, ?_, rfl, ?_⟩
  · simp only [main_ai_pipeline, ht, call_llama, hhttp]
    rfl
  · simp only [test_ai_pipeline, ht2, test_call_llama, hhttp2]
    rfl

/-- Witness for C9: speech recognition fails in both files, each
sentinel itself is the user content of the request, and each pipeline
still displays sentinel and answer. -/
theorem C9_witness :
    jGet (main_payload "Could not understand audio.") "messages" =
      some (.arr
        [.obj [("role", .str "system"), ("content", .str mainSystemPrompt)],
         .obj [("role", .str "user"),
           ("content", .str "Could not understand audio.")]]) ∧
    main_ai_pipeline .unknownValue (fun _ _ => .ok (mkResp "Answer A"))
        initState =
      { initState with
        label := "[b]🎤 Interviewer Said:[/b]\n" ++
          "Could not understand audio." ++
          "\n\n[b]🤖 Suggested Answer:[/b]\n" ++ "Answer A"
        gen_disabled := false } ∧
    jGet (test_payload "❌ Could not understand the audio.") "messages" =
      some (.arr
        [.obj [("role", .str "system"), ("content", .str testSystemPrompt)],
         .obj [("role", .str "user"),
           ("content", .str "❌ Could not understand the audio.")]]) ∧
    test_ai_pipeline .unknownValue (fun _ _ => .ok (mkResp "Answer B"))
        initState =
      { initState with
        label := "[b] Interviewer Say:[/b]\n" ++
          "❌ Could not understand the audio." ++
          "\n\n[b]🤖 Generated Answer:[/b]\n" ++ "Answer B"
        gen_disabled := false } :=
  C9_transcript_forwarded_unconditionally initState initState
    .unknownValue .unknownValue "Could not understand audio."
    "❌ Could not understand the audio." "Answer A" "Answer B"
    (fun _ _ => .ok (mkResp "Answer A"))
    (fun _ _ => .ok (mkResp "Answer B")) rfl rfl rfl rfl

end InterviewSpec
